import Mathlib

/-!
Verification development for the maps agriculture index pipeline
(src/preprocess_file.py, src/senti_download.py, src/img_processing.py).

The repository is thin glue over geospatial libraries.  The embedding keeps
the control flow and data flow of the Python source and abstracts the
library primitives as parameters:

* geometry (shapely) is an abstract type P together with functions
  area : P -> Q and inter : P -> P -> P supplied as arguments, exactly the
  two operations the source uses (polygon.intersection(g).area, g.area);
* raster pixel arrays (numpy arrays read by rasterio) are lists of
  rationals, one entry per pixel; arithmetic on them is exact;
* fallible Python code (raising statements, bare except) is modelled with
  Except String, the string naming the Python exception;
* Python dictionaries built by repeated assignment are association lists
  where the most recent binding wins.
-/

/-- Equality of Except values is decidable when it is on both sides. -/
instance exceptDecEq {E A : Type} [DecidableEq E] [DecidableEq A] :
    DecidableEq (Except E A) := fun x y =>
  match x, y with
  | Except.ok a, Except.ok b =>
    if h : a = b then isTrue (by rw [h])
    else isFalse (fun he => by cases he; exact h rfl)
  | Except.error e, Except.error f =>
    if h : e = f then isTrue (by rw [h])
    else isFalse (fun he => by cases he; exact h rfl)
  | Except.ok _, Except.error _ => isFalse (fun he => by cases he)
  | Except.error _, Except.ok _ => isFalse (fun he => by cases he)

namespace PreprocessFile

/-- A shapely geometry as seen by ProcessMultiPoly: a Polygon with payload
from an abstract type P, a MultiPolygon holding the list of its constituent
polygons (iterating a shapely MultiPolygon yields them in order), or a
geometry of any other geom type. -/
inductive Geom (P : Type) where
  | poly (p : P)
  | multi (ps : List P)
  | other
deriving DecidableEq

/-- One row of the geodataframe handled by ProcessMultiPoly: a name column
and a geometry column. -/
structure GRow (P : Type) where
  name : String
  geometry : Geom P
deriving DecidableEq

/-- The geom type attribute of a shapely geometry. -/
def geom_type {P : Type} : Geom P → String
  | Geom.poly _ => "Polygon"
  | Geom.multi _ => "MultiPolygon"
  | Geom.other => "Other"

/-- ProcessMultiPoly.check_type: true when the geometry has the given
geom type. -/
def check_type {P : Type} (poly : Geom P) (poly_type : String) : Bool :=
  geom_type poly == poly_type

/-- ProcessMultiPoly. _row_by_type: the rows of the geodataframe whose
geometry has the given geom type, or none when no row does. -/
def row_by_type {P : Type} (gdf : List (GRow P)) (poly_type : String) :
    Option (List (GRow P)) :=
  let f := gdf.filter (fun r => check_type r.geometry poly_type)
  if f.isEmpty then none else some f

/-- list(row.geometry) for a MultiPolygon row: the list of constituent
polygons.  Only MultiPolygon rows reach the call sites below. -/
def geomList {P : Type} : Geom P → List P
  | Geom.multi ps => ps
  | Geom.poly _ => []
  | Geom.other => []

/-- The body of the loop of _transform_multipoly for one row: a row whose
MultiPolygon has more than one constituent contributes one row per
constituent named name_k, otherwise the single row list(row.geometry)[0]
is kept under the original name; indexing an empty MultiPolygon raises. -/
def rowExpand {P : Type} (row : GRow P) : Except String (List (GRow P)) :=
  let parts := geomList row.geometry
  if parts.length > 1 then
    Except.ok (parts.enum.map (fun kp =>
      { name := row.name ++ "_" ++ toString kp.1, geometry := Geom.poly kp.2 }))
  else
    match parts with
    | p :: _ => Except.ok [{ name := row.name, geometry := Geom.poly p }]
    | [] => Except.error "IndexError: list index out of range"

/-- ProcessMultiPoly. _transform_multipoly.  With more than one row the
rows of tmp_list are accumulated in row order; with at most one row the
geometry column of the input is replaced by the first constituent of its
single MultiPolygon (an empty input would fail on iloc[0]). -/
def transform_multipoly {P : Type} (multipoly : List (GRow P)) :
    Except String (List (GRow P)) :=
  if multipoly.length > 1 then do
    let chunks ← multipoly.mapM rowExpand
    Except.ok chunks.flatten
  else
    match multipoly with
    | [row] =>
      match geomList row.geometry with
      | p :: _ => Except.ok [{ name := row.name, geometry := Geom.poly p }]
      | [] => Except.error "IndexError: list index out of range"
    | _ => Except.error "IndexError: single positional indexer is out-of-bounds"

/-- ProcessMultiPoly.preprocess_multipoly: split the geodataframe into its
MultiPolygon rows and its Polygon rows, raise when both are absent,
otherwise expand the MultiPolygon rows (pd.concat drops a None operand). -/
def preprocess_multipoly {P : Type} (gdf : List (GRow P)) :
    Except String (List (GRow P)) :=
  let multipoly_df := row_by_type gdf "MultiPolygon"
  let poly_df := row_by_type gdf "Polygon"
  match multipoly_df, poly_df with
  | none, none => Except.error "None Polygon was found. Data type not recognized."
  | some m, p => do
    let poly_df_processed ← transform_multipoly m
    Except.ok (poly_df_processed ++ p.getD [])
  | none, some p => Except.ok p

/-- Predicate form of check_type for MultiPolygon rows. -/
def isMultiRow {P : Type} (r : GRow P) : Bool :=
  check_type r.geometry "MultiPolygon"

/-- Predicate form of check_type for Polygon rows. -/
def isPolyRow {P : Type} (r : GRow P) : Bool :=
  check_type r.geometry "Polygon"

/-- Total form of rowExpand for a row whose constituent list is nonempty:
one row per constituent when there are at least two, the single first
constituent under the original name otherwise. -/
def expandRow {P : Type} (r : GRow P) : List (GRow P) :=
  let parts := geomList r.geometry
  if parts.length > 1 then
    parts.enum.map (fun kp =>
      { name := r.name ++ "_" ++ toString kp.1, geometry := Geom.poly kp.2 })
  else
    match parts with
    | p :: _ => [{ name := r.name, geometry := Geom.poly p }]
    | [] => []

end PreprocessFile

namespace SentiDownload

/-- One row of the products geodataframe returned by the archive query:
the dataframe index label, the footprint geometry, and the filename and
title columns used by download_folders. -/
structure Product (P : Type) where
  idx : Nat
  geometry : P
  filename : String
  title : String
deriving DecidableEq

/-- The state threaded through the loop of download_folders: the current
listing of the database directory (downloads and zip extraction add
entries to it), the delete list of index labels, and the index labels
passed to api.download in order. -/
structure DlState (P : Type) where
  dbFiles : List String
  delete : List Nat
  downloaded : List Nat

/-- The area fraction computed for one product row (lines 82 to 86 of
src/senti_download.py): the area of the intersection of the polygon of
interest with the footprint of the row, divided by the footprint area when
regional_poly holds and by the area of the polygon otherwise. -/
def dlRatio {P : Type} (area : P → ℚ) (inter : P → P → P) (polygon : P)
    (regional_poly : Bool) (row : Product P) : ℚ :=
  let intersect_area := area (inter polygon row.geometry)
  if regional_poly then intersect_area / area row.geometry
  else intersect_area / area polygon

/-- One iteration of the loop of download_folders.  A row passing the
threshold whose filename is not in the current directory listing is
downloaded: api.download drops title.zip into the directory and
extractall adds the zip contents (zipContents names them); a passing row
already present, and every failing row, goes on the delete list. -/
def download_folders_step {P : Type} (area : P → ℚ) (inter : P → P → P)
    (zipContents : Product P → List String) (polygon : P)
    (regional_poly : Bool) (threshold : ℚ)
    (st : DlState P) (row : Product P) : DlState P :=
  if threshold ≤ dlRatio area inter polygon regional_poly row then
    if row.filename ∈ st.dbFiles then
      { st with delete := st.delete ++ [row.idx] }
    else
      { st with
        downloaded := st.downloaded ++ [row.idx],
        dbFiles := st.dbFiles ++ (row.title ++ ".zip") :: zipContents row }
  else
    { st with delete := st.delete ++ [row.idx] }

/-- DownloadImages.download_folders: iterate over the product rows, then
drop the delete labels from the dataframe.  The first component is the
returned dataframe of products, the second the index labels that were
downloaded, in download order; dbFiles is the listing of database_path on
entry. -/
def download_folders {P : Type} (area : P → ℚ) (inter : P → P → P)
    (zipContents : Product P → List String) (polygon : P)
    (regional_poly : Bool) (products : List (Product P))
    (dbFiles : List String) (threshold : ℚ) :
    List (Product P) × List Nat :=
  let fin := products.foldl
    (download_folders_step area inter zipContents polygon regional_poly threshold)
    { dbFiles := dbFiles, delete := [], downloaded := [] }
  (products.filter (fun r => !(fin.delete.contains r.idx)), fin.downloaded)

/-- DownloadImages.update_downloaded.  The try block reads the ledger,
builds df.append(downloaded_products) — a new dataframe that is never
used — and writes df back; any exception in the block lands in the bare
except, which writes the downloaded products as a fresh csv.  The reading
and writing of csv_path are the fallible parameters readCsv and writeCsv;
the result is the final content of the csv, or the propagated exception
when the fallback write itself raises. -/
def update_downloaded {E R : Type} (readCsv : Except E (List R))
    (writeCsv : List R → Except E Unit) (downloaded_products : List R) :
    Except E (List R) :=
  let tryPath : Except E (List R) := do
    let df ← readCsv
    let _appended := df ++ downloaded_products
    let _ ← writeCsv df
    pure df
  match tryPath with
  | Except.ok df => Except.ok df
  | Except.error _ => (writeCsv downloaded_products).map (fun _ => downloaded_products)

/-- Whether an Except value is a success. -/
def exceptIsOk {E A : Type} : Except E A → Bool
  | Except.ok _ => true
  | Except.error _ => false

/-- A dynamically typed Python value, needed because full_pipe calls
download_folders with one positional argument too few: the values that can
reach its parameters are a string, a float, a bool or a products
dataframe. -/
inductive PyObj (P : Type) where
  | pyStr (s : String)
  | pyFloat (q : ℚ)
  | pyBool (b : Bool)
  | pyFrame (rows : List (Product P))

/-- Dynamic entry of download_folders.  Python resolves the attribute
iterrows on the products argument when the loop statement runs, before
anything else: only a dataframe has it, so a string or float in that
position raises AttributeError.  With a dataframe there, the loop body
also needs regional_poly and database_path well typed (truthiness and
os.listdir), and the typed download_folders above runs on the listing of
database_path. -/
def download_folders_checked {P : Type} (area : P → ℚ) (inter : P → P → P)
    (zipContents : Product P → List String) (listdir : String → List String)
    (polygon : P) (regional_poly : PyObj P) (products : PyObj P)
    (database_path : PyObj P) (threshold : ℚ) :
    Except String (List (Product P) × List Nat) :=
  match products with
  | PyObj.pyFrame rows =>
    match regional_poly, database_path with
    | PyObj.pyBool b, PyObj.pyStr db =>
      Except.ok (download_folders area inter zipContents polygon b rows (listdir db) threshold)
    | _, _ => Except.error "TypeError"
  | _ => Except.error "AttributeError: object has no attribute iterrows"

/-- DownloadImages.full_pipe.  It runs get_products (the api query result
is the parameter queryResult) and then calls
download_folders(polygon, products, database_path, threshold): against the
signature (self, polygon, regional_poly, products, database_path,
threshold=0.9) the products dataframe fills regional_poly, the
database_path string fills products, the threshold float fills
database_path, and threshold keeps its 0.9 default.  Afterwards it would
call update_downloaded(csv_path, products). -/
def full_pipe {P : Type} (area : P → ℚ) (inter : P → P → P)
    (zipContents : Product P → List String) (listdir : String → List String)
    (queryResult : List (Product P))
    (readCsv : Except String (List (Product P)))
    (writeCsv : List (Product P) → Except String Unit)
    (polygon : P) (database_path : String) (threshold : ℚ) :
    Except String Unit := do
  let products := queryResult
  let dl ← download_folders_checked area inter zipContents listdir polygon
    (PyObj.pyFrame products) (PyObj.pyStr database_path) (PyObj.pyFloat threshold)
    ((9 : ℚ) / 10)
  let _ ← update_downloaded readCsv writeCsv dl.1
  Except.ok ()

end SentiDownload

namespace ImgProcessing

/-- Assignment into a Python dictionary: the new binding is consed on the
front, so a later assignment to the same key shadows an earlier one. -/
def dictInsert (d : List (String × String)) (k v : String) :
    List (String × String) :=
  (k, v) :: d

/-- Reading a Python dictionary built with dictInsert: the most recent
binding for the key, if any. -/
def dictGet? {α : Type} (d : List (String × α)) (k : String) : Option α :=
  (d.find? (fun e => e.1 == k)).map (fun e => e.2)

/-- Reading a Python dictionary whose bindings were appended in program
order (the key assigned last wins). -/
def dictGetLast? {α : Type} (d : List (String × α)) (k : String) : Option α :=
  (d.reverse.find? (fun e => e.1 == k)).map (fun e => e.2)

/-- Whether the pattern starts the character list. -/
def prefixMatch : List Char → List Char → Bool
  | [], _ => true
  | _ :: _, [] => false
  | p :: ps, c :: cs => p == c && prefixMatch ps cs

/-- Whether the pattern occurs anywhere in the character list: the Python
substring test. -/
def subMatch (pat : List Char) : List Char → Bool
  | [] => prefixMatch pat []
  | c :: cs => prefixMatch pat (c :: cs) || subMatch pat cs

/-- Splitting a character list on a separator, keeping empty pieces, as
the Python str.split with an explicit separator does. -/
def splitChar (sep : Char) : List Char → List (List Char)
  | [] => [[]]
  | c :: cs =>
    let r := splitChar sep cs
    if c == sep then [] :: r
    else
      match r with
      | [] => [[c]]
      | h :: t => (c :: h) :: t

/-- The Python f.split(sep) on strings. -/
def pySplit (sep : Char) (s : String) : List String :=
  (splitChar sep s.data).map (fun l => String.mk l)

/-- The Python substring test ".jp2" in f. -/
def hasJp2 (f : String) : Bool :=
  subMatch ".jp2".data f.data

/-- The band dictionary loop shared by generate_ndvi, generate_ndre and
mask_tci: for every listed file containing ".jp2", the file is stored
under the third underscore separated piece of its name,
bands[f.split(sep)[2]] = f; a file name with fewer than three such pieces
raises IndexError. -/
def buildBands (files : List String) : Except String (List (String × String)) :=
  files.foldlM
    (fun d f =>
      if hasJp2 f then
        match (pySplit '_' f)[2]? with
        | some key => Except.ok (dictInsert d key f)
        | none => Except.error "IndexError: list index out of range"
      else Except.ok d)
    []

/-- The dictionary read bands[k]: KeyError when the band is absent. -/
def bandOrKeyError (bands : List (String × String)) (k : String) :
    Except String String :=
  match dictGet? bands k with
  | some f => Except.ok f
  | none => Except.error ("KeyError: " ++ k)

/-- The array expression (nir.astype(float) - x.astype(float)) / (nir + x),
evaluated pixel by pixel; numpy raises when the shapes cannot be
broadcast together. -/
def normDiff (nir x : List ℚ) : Except String (List ℚ) :=
  if nir.length = x.length then
    Except.ok (List.zipWith (fun n r => (n - r) / (n + r)) nir x)
  else Except.error "ValueError: operands could not be broadcast together"

/-- The R10m directory a product offers to generate_ndvi: its listing and
the pixel array each listed raster holds. -/
structure R10mState where
  files : List String
  read : String → List ℚ

/-- ImageProcessing.generate_ndvi on the R10m directory of img_path: when
NDVI.tiff is absent, build the band dictionary, read B04 (red) and B08
(nir), and write NDVI.tiff holding their normalized difference.  The
result is the written file, none when NDVI.tiff was already present. -/
def generate_ndvi (st : R10mState) : Except String (Option (String × List ℚ)) :=
  if "NDVI.tiff" ∈ st.files then Except.ok none
  else do
    let bands ← buildBands st.files
    let f4 ← bandOrKeyError bands "B04"
    let f8 ← bandOrKeyError bands "B08"
    let red := st.read f4
    let nir := st.read f8
    let ndvi ← normDiff nir red
    Except.ok (some ("NDVI.tiff", ndvi))

/-- The IMG_DATA directory a product offers to generate_ndre: listings and
contents of its R10m and R20m subdirectories. -/
structure ImgDataState where
  r10mFiles : List String
  r20mFiles : List String
  readR10m : String → List ℚ
  readR20m : String → List ℚ

/-- ImageProcessing.generate_ndre: when NDRE.tiff is absent from R10m,
look up B05 (red edge) in R20m and B08 in R10m, read B08 at half
resolution with bilinear resampling (the rasterio resampled read is the
parameter resample), write the intermediate B8_reproj.tiff, read it back
as the nir array, and write NDRE.tiff holding the normalized difference of
nir and red edge.  The result lists the files written into R10m in order;
it is empty when NDRE.tiff was already present. -/
def generate_ndre (resample : List ℚ → List ℚ) (st : ImgDataState) :
    Except String (List (String × List ℚ)) :=
  if "NDRE.tiff" ∈ st.r10mFiles then Except.ok []
  else do
    let bands20 ← buildBands st.r20mFiles
    let f5 ← bandOrKeyError bands20 "B05"
    let bands10 ← buildBands st.r10mFiles
    let f8 ← bandOrKeyError bands10 "B08"
    let data := resample (st.readR10m f8)
    let rededge := st.readR20m f5
    let nir := data
    let ndre ← normDiff nir rededge
    Except.ok [("B8_reproj.tiff", data), ("NDRE.tiff", ndre)]

/-- One row of the ledger csv read by get_folders: the filename and
geometry columns and the ingestiondate column after pd.to_datetime.  A
timestamp is a rational number of days, its integer part the civil date
and its fractional part the time of day. -/
structure CsvRow (P : Type) where
  filename : String
  ingestiondate : ℚ
  geometry : P

/-- One row of the geodataframe the ImageProcessing instance was built
over: the name and geometry columns. -/
structure GdfRow (P : Type) where
  name : String
  geometry : P

/-- The area fraction computed for one polygon row and one ledger row
(lines 105 to 108 of src/img_processing.py): the area of the intersection
of the polygon with the product footprint, divided by the area of the
polygon. -/
def folderRatio {P : Type} (area : P → ℚ) (inter : P → P → P)
    (g : GdfRow P) (r : CsvRow P) : ℚ :=
  area (inter g.geometry r.geometry) / area g.geometry

/-- The inner loop of get_folders for one polygon row: the ledger rows
whose area fraction reaches the threshold, in ledger order. -/
def polyFolderRows {P : Type} (area : P → ℚ) (inter : P → P → P)
    (g : GdfRow P) (rows : List (CsvRow P)) (threshold : ℚ) :
    List (CsvRow P) :=
  rows.filter (fun r => decide (threshold ≤ folderRatio area inter g r))

/-- ImageProcessing.get_folders.  When initial_date is supplied the body
evaluates strptime(intial_date, ...): the local name intial_date is never
assigned, so the call raises UnboundLocalError before anything else.
final_date is strptime parsed from day/month/year and one day is added;
the embedding receives the parsed date as its day number, and keeps rows
with ingestiondate strictly below that day number plus one.  The two
dictionaries map each polygon name (the key assigned last wins for a
duplicated name) to the filenames and the ingestion dates of the rows
that pass the threshold for that polygon. -/
def get_folders {P : Type} (area : P → ℚ) (inter : P → P → P)
    (gdfRows : List (GdfRow P)) (csvRows : List (CsvRow P))
    (initial_date : Option String) (final_date : Option ℤ) (threshold : ℚ) :
    Except String (List (String × List String) × List (String × List ℚ)) :=
  match initial_date with
  | some _ => Except.error "UnboundLocalError: intial_date"
  | none =>
    let df :=
      match final_date with
      | some d => csvRows.filter (fun r => decide (r.ingestiondate < (d : ℚ) + 1))
      | none => csvRows
    Except.ok
      (gdfRows.map (fun g =>
        (g.name, (polyFolderRows area inter g df threshold).map (fun r => r.filename))),
       gdfRows.map (fun g =>
        (g.name, (polyFolderRows area inter g df threshold).map (fun r => r.ingestiondate))))

/-- Two digit zero padding, as the strftime fields %d and %m produce. -/
def pad2 (n : Nat) : String :=
  if n < 10 then "0" ++ toString n else toString n

/-- Four digit zero padding, as the strftime field %Y produces. -/
def pad4 (n : Nat) : String :=
  if n < 10 then "000" ++ toString n
  else if n < 100 then "00" ++ toString n
  else if n < 1000 then "0" ++ toString n
  else toString n

/-- A calendar date as the mask methods receive it. -/
structure MaskDate where
  day : Nat
  month : Nat
  year : Nat

/-- date.strftime with the format day-month-year. -/
def strftimeDMY (d : MaskDate) : String :=
  pad2 d.day ++ "-" ++ pad2 d.month ++ "-" ++ pad4 d.year

/-- The polygon selection shared by mask_ndre, mask_ndvi and mask_tci:
gdf.iloc[[0]] when poly_name is omitted, the rows whose name column equals
poly_name otherwise. -/
def mask_select {P : Type} (gdf : List (GdfRow P)) (poly_name : Option String) :
    List (GdfRow P) :=
  match poly_name with
  | none => gdf.take 1
  | some n => gdf.filter (fun r => r.name == n)

/-- ImageProcessing.mask_ndre: clip R10m/NDRE.tiff of img_path with the
geometry column of the selected rows (rasterio.mask.mask receives
shape_proj.geometry; the to_crs reprojection is a library call that leaves
the abstract geometries unchanged) and write the clip under the name of
the first selected row.  The result is the list of clip geometries and
the output path; an empty selection raises (rasterio.mask rejects empty
shapes). -/
def mask_ndre {P : Type} (gdf : List (GdfRow P)) (img_path : String)
    (date : MaskDate) (poly_name : Option String) :
    Except String (List P × String) :=
  let sel := mask_select gdf poly_name
  let ds := strftimeDMY date
  let _src := img_path ++ "/R10m/NDRE.tiff"
  match sel with
  | [] => Except.error "ValueError: shapes are empty"
  | g :: _ =>
    Except.ok (sel.map (fun r => r.geometry), g.name ++ "/NDRE/" ++ ds ++ "_ndre.tiff")

/-- ImageProcessing.mask_ndvi: as mask_ndre, on R10m/NDVI.tiff, writing
into the NDVI folder of the first selected row. -/
def mask_ndvi {P : Type} (gdf : List (GdfRow P)) (img_path : String)
    (date : MaskDate) (poly_name : Option String) :
    Except String (List P × String) :=
  let sel := mask_select gdf poly_name
  let ds := strftimeDMY date
  let _src := img_path ++ "/R10m/NDVI.tiff"
  match sel with
  | [] => Except.error "ValueError: shapes are empty"
  | g :: _ =>
    Except.ok (sel.map (fun r => r.geometry), g.name ++ "/NDVI/" ++ ds ++ "_ndvi.tiff")

/-- ImageProcessing.mask_tci: the true color band is located through the
band dictionary of the R10m listing (KeyError when TCI is absent), then
the clip is written into the TCI folder of the first selected row. -/
def mask_tci {P : Type} (gdf : List (GdfRow P)) (r10mFiles : List String)
    (img_path : String) (date : MaskDate) (poly_name : Option String) :
    Except String (List P × String) := do
  let sel := mask_select gdf poly_name
  let _path := img_path ++ "/R10m"
  let ds := strftimeDMY date
  let bands ← buildBands r10mFiles
  let _tci ← bandOrKeyError bands "TCI"
  match sel with
  | [] => Except.error "ValueError: shapes are empty"
  | g :: _ =>
    Except.ok (sel.map (fun r => r.geometry), g.name ++ "/TCI/" ++ ds ++ "_tci.tiff")

end ImgProcessing

/-!
## Theorems
-/

/-- C3: the claim says update_downloaded leaves every previously recorded
row and every newly downloaded row in the csv.  Evaluating the code at a
readable ledger holding row 0 and a download holding row 1: the
df.append result is discarded, df.to_csv writes only the prior rows, and
the new row is absent from the final csv. -/
theorem C3_update_drops_new_rows :
    @SentiDownload.update_downloaded String ℕ (Except.ok [0])
      (fun _ => Except.ok ()) [1] = Except.ok [0] ∧
    (1 : ℕ) ∉ ([0] : List ℕ) := by
  exact ⟨rfl, by decide⟩

/-- C5: full_pipe never reaches the download or the ledger update.  Its
call download_folders(polygon, products, database_path, threshold) is one
positional argument short of the signature (polygon, regional_poly,
products, database_path, threshold), so the database_path string fills the
products parameter and its iterrows attribute lookup raises
AttributeError for every valid set of arguments. -/
theorem C5_full_pipe_raises {P : Type} (area : P → ℚ) (inter : P → P → P)
    (zipContents : SentiDownload.Product P → List String)
    (listdir : String → List String)
    (queryResult : List (SentiDownload.Product P))
    (readCsv : Except String (List (SentiDownload.Product P)))
    (writeCsv : List (SentiDownload.Product P) → Except String Unit)
    (polygon : P) (database_path : String) (threshold : ℚ) :
    SentiDownload.full_pipe area inter zipContents listdir queryResult readCsv
      writeCsv polygon database_path threshold =
      Except.error "AttributeError: object has no attribute iterrows" := rfl

/-- C6: the claim says a supplied initial date filters the ledger rows to
those ingested after it.  The body instead evaluates
strptime(intial_date, ...) where the local name intial_date was never
assigned, so get_folders raises UnboundLocalError whenever an initial
date string is supplied, for every ledger and polygon set. -/
theorem C6_initial_date_raises {P : Type} (area : P → ℚ) (inter : P → P → P)
    (gdfRows : List (ImgProcessing.GdfRow P))
    (csvRows : List (ImgProcessing.CsvRow P))
    (s : String) (final_date : Option ℤ) (threshold : ℚ) :
    ImgProcessing.get_folders area inter gdfRows csvRows (some s) final_date
      threshold = Except.error "UnboundLocalError: intial_date" := rfl

/-- C7 counterexample: when reading the ledger raises and the fallback
write of the downloaded products raises as well, update_downloaded
propagates the exception of the fallback write, so it is not true that it
never propagates an exception. -/
theorem C7_fallback_write_propagates :
    @SentiDownload.update_downloaded String ℕ (Except.error "FileNotFoundError")
      (fun _ => Except.error "OSError") [] = Except.error "OSError" := rfl

/-- Computation rule: binding a success on Except applies the
continuation. -/
theorem exceptBind_ok {E A B : Type} (a : A) (f : A → Except E B) :
    (Except.ok a >>= f) = f a := rfl

/-- Computation rule: binding a failure on Except propagates it. -/
theorem exceptBind_error {E A B : Type} (e : E) (f : A → Except E B) :
    ((Except.error e : Except E A) >>= f) = Except.error e := rfl

/-- Computation rule: pure on Except is success. -/
theorem exceptPure_eq {E A : Type} (a : A) :
    (pure a : Except E A) = Except.ok a := rfl

/-- Computation rule: mapping over a success on Except applies the
function. -/
theorem exceptMap_ok {E A B : Type} (f : A → B) (a : A) :
    Except.map f (Except.ok a : Except E A) = Except.ok (f a) := rfl

/-- C7 amended: update_downloaded catches any failure of reading or
rewriting the existing csv and falls back to writing the downloaded
products as a fresh csv at csv_path; an exception propagates only when
that fallback write itself fails.  When the fallback write succeeds the
call returns normally, and whenever the try block failed the final csv
holds exactly the downloaded products. -/
theorem C7_catchall_amended {E R : Type} (readCsv : Except E (List R))
    (writeCsv : List R → Except E Unit) (dl : List R)
    (hfb : writeCsv dl = Except.ok ()) :
    (∃ out, SentiDownload.update_downloaded readCsv writeCsv dl = Except.ok out) ∧
    ((match readCsv with
      | Except.ok df => SentiDownload.exceptIsOk (writeCsv df)
      | Except.error _ => false) = false →
      SentiDownload.update_downloaded readCsv writeCsv dl = Except.ok dl) := by
  unfold SentiDownload.update_downloaded
  cases readCsv with
  | error e =>
    refine ⟨⟨dl, ?_⟩, fun _ => ?_⟩ <;>
      simp [exceptBind_error, hfb, exceptMap_ok]
  | ok df =>
    cases hw : writeCsv df with
    | ok u =>
      refine ⟨⟨df, ?_⟩, fun hcontra => ?_⟩
      · simp [exceptBind_ok, hw, exceptPure_eq]
      · simp [SentiDownload.exceptIsOk, hw] at hcontra
    | error e =>
      refine ⟨⟨dl, ?_⟩, fun _ => ?_⟩ <;>
        simp [exceptBind_ok, hw, hfb, exceptMap_ok]

/-- C7 amended witness: a failing read with a succeeding fallback write
ends with the downloaded products as the csv and no exception. -/
theorem C7_catchall_amended_wit :
    (∃ out, @SentiDownload.update_downloaded String ℕ (Except.error "boom")
        (fun _ => Except.ok ()) [7] = Except.ok out) ∧
    ((match (Except.error "boom" : Except String (List ℕ)) with
      | Except.ok df =>
        SentiDownload.exceptIsOk ((fun _ => Except.ok ()) df : Except String Unit)
      | Except.error _ => false) = false →
      @SentiDownload.update_downloaded String ℕ (Except.error "boom")
        (fun _ => Except.ok ()) [7] = Except.ok [7]) :=
  C7_catchall_amended (Except.error "boom") (fun _ => Except.ok ()) [7] rfl

/-- C4 counterexample: the claim promises one Polygon row per constituent
of each MultiPolygon row.  On a geodataframe holding exactly one
MultiPolygon row with two constituents, preprocess_multipoly returns a
single row holding only the first constituent: one row, not the two the
claim requires. -/
theorem C4_single_multi_counterexample :
    PreprocessFile.preprocess_multipoly
        [{ name := "a", geometry := PreprocessFile.Geom.multi [0, 1] }] =
      Except.ok [{ name := "a", geometry := PreprocessFile.Geom.poly (0 : ℕ) }] ∧
    ([{ name := "a", geometry := PreprocessFile.Geom.poly (0 : ℕ) }] :
        List (PreprocessFile.GRow ℕ)).length ≠ ([0, 1] : List ℕ).length := by
  exact ⟨rfl, by decide⟩

/-- Evaluating a list of Except computations that all succeed: mapM
returns the list of their values. -/
theorem listMapM_ok {E A B : Type} (f : A → Except E B) (g : A → B) :
    ∀ l : List A, (∀ x ∈ l, f x = Except.ok (g x)) →
      l.mapM f = Except.ok (l.map g) := by
  intro l
  induction l with
  | nil => intro _; rfl
  | cons a t ih =>
    intro h
    rw [List.mapM_cons, h a (List.mem_cons_self a t),
      ih (fun x hx => h x (List.mem_cons_of_mem a hx))]
    rfl

/-- row_by_type returns none when no row has the requested type. -/
theorem row_by_type_none {P : Type} (gdf : List (PreprocessFile.GRow P))
    (t : String)
    (h : gdf.filter (fun r => PreprocessFile.check_type r.geometry t) = []) :
    PreprocessFile.row_by_type gdf t = none := by
  unfold PreprocessFile.row_by_type
  simp [h]

/-- row_by_type returns the filtered rows when at least one row has the
requested type. -/
theorem row_by_type_some {P : Type} (gdf : List (PreprocessFile.GRow P))
    (t : String)
    (h : gdf.filter (fun r => PreprocessFile.check_type r.geometry t) ≠ []) :
    PreprocessFile.row_by_type gdf t =
      some (gdf.filter (fun r => PreprocessFile.check_type r.geometry t)) := by
  unfold PreprocessFile.row_by_type
  cases hc : gdf.filter (fun r => PreprocessFile.check_type r.geometry t) with
  | nil => exact absurd hc h
  | cons a l => simp [hc]

/-- rowExpand never raises on a row whose constituent list is nonempty,
and then agrees with expandRow. -/
theorem rowExpand_eq_expandRow {P : Type} (r : PreprocessFile.GRow P)
    (h : PreprocessFile.geomList r.geometry ≠ []) :
    PreprocessFile.rowExpand r = Except.ok (PreprocessFile.expandRow r) := by
  unfold PreprocessFile.rowExpand PreprocessFile.expandRow
  cases hp : PreprocessFile.geomList r.geometry with
  | nil => exact absurd hp h
  | cons p ps =>
    by_cases hl : (p :: ps).length > 1 <;> simp [hp, hl] <;> split <;> rfl

/-- transform_multipoly on at least two rows expands each row. -/
theorem transform_multipoly_ge2 {P : Type} (m : List (PreprocessFile.GRow P))
    (h2 : 2 ≤ m.length)
    (hok : ∀ r ∈ m,
      PreprocessFile.rowExpand r = Except.ok (PreprocessFile.expandRow r)) :
    PreprocessFile.transform_multipoly m =
      Except.ok ((m.map PreprocessFile.expandRow).flatten) := by
  unfold PreprocessFile.transform_multipoly
  rw [if_pos (show m.length > 1 by omega),
    listMapM_ok PreprocessFile.rowExpand PreprocessFile.expandRow m hok]
  rfl

/-- transform_multipoly on exactly one row keeps only the first
constituent of its geometry, under the original row name. -/
theorem transform_multipoly_single {P : Type} (row : PreprocessFile.GRow P)
    (p : P) (ps : List P)
    (hg : PreprocessFile.geomList row.geometry = p :: ps) :
    PreprocessFile.transform_multipoly [row] =
      Except.ok [{ name := row.name, geometry := PreprocessFile.Geom.poly p }] := by
  unfold PreprocessFile.transform_multipoly
  rw [if_neg (by simp)]
  simp [hg]

/-- row_by_type specialised to MultiPolygon, empty case. -/
theorem row_by_type_multi_none {P : Type} (gdf : List (PreprocessFile.GRow P))
    (h : gdf.filter PreprocessFile.isMultiRow = []) :
    PreprocessFile.row_by_type gdf "MultiPolygon" = none :=
  row_by_type_none gdf "MultiPolygon" h

/-- row_by_type specialised to MultiPolygon, nonempty case. -/
theorem row_by_type_multi_some {P : Type} (gdf : List (PreprocessFile.GRow P))
    (h : gdf.filter PreprocessFile.isMultiRow ≠ []) :
    PreprocessFile.row_by_type gdf "MultiPolygon" =
      some (gdf.filter PreprocessFile.isMultiRow) :=
  row_by_type_some gdf "MultiPolygon" h

/-- row_by_type specialised to Polygon, empty case. -/
theorem row_by_type_poly_none {P : Type} (gdf : List (PreprocessFile.GRow P))
    (h : gdf.filter PreprocessFile.isPolyRow = []) :
    PreprocessFile.row_by_type gdf "Polygon" = none :=
  row_by_type_none gdf "Polygon" h

/-- row_by_type specialised to Polygon, nonempty case. -/
theorem row_by_type_poly_some {P : Type} (gdf : List (PreprocessFile.GRow P))
    (h : gdf.filter PreprocessFile.isPolyRow ≠ []) :
    PreprocessFile.row_by_type gdf "Polygon" =
      some (gdf.filter PreprocessFile.isPolyRow) :=
  row_by_type_some gdf "Polygon" h

/-- C4 amended: on an input whose MultiPolygon rows are all nonempty,
preprocess_multipoly raises exactly when the input has neither a Polygon
nor a MultiPolygon row; with at least two MultiPolygon rows it returns one
Polygon row per constituent of each MultiPolygon row with two or more
constituents (one row for a single constituent) followed by the input
Polygon rows; but with exactly one MultiPolygon row it returns a single
row holding only the first constituent of that row, followed by the input
Polygon rows. -/
theorem C4_flatten_amended {P : Type} (gdf : List (PreprocessFile.GRow P))
    (hne : ∀ r ∈ gdf, PreprocessFile.isMultiRow r = true →
      PreprocessFile.geomList r.geometry ≠ []) :
    (gdf.filter PreprocessFile.isMultiRow = [] →
      gdf.filter PreprocessFile.isPolyRow = [] →
      PreprocessFile.preprocess_multipoly gdf =
        Except.error "None Polygon was found. Data type not recognized.") ∧
    (2 ≤ (gdf.filter PreprocessFile.isMultiRow).length →
      PreprocessFile.preprocess_multipoly gdf = Except.ok
        (((gdf.filter PreprocessFile.isMultiRow).map PreprocessFile.expandRow).flatten
          ++ gdf.filter PreprocessFile.isPolyRow)) ∧
    (∀ row, gdf.filter PreprocessFile.isMultiRow = [row] →
      ∃ p ps, PreprocessFile.geomList row.geometry = p :: ps ∧
        PreprocessFile.preprocess_multipoly gdf = Except.ok
          ({ name := row.name, geometry := PreprocessFile.Geom.poly p } ::
            gdf.filter PreprocessFile.isPolyRow)) ∧
    (gdf.filter PreprocessFile.isMultiRow = [] →
      gdf.filter PreprocessFile.isPolyRow ≠ [] →
      PreprocessFile.preprocess_multipoly gdf =
        Except.ok (gdf.filter PreprocessFile.isPolyRow)) := by
  refine ⟨?_, ?_, ?_, ?_⟩
  · intro hm hp
    unfold PreprocessFile.preprocess_multipoly
    rw [row_by_type_multi_none gdf hm, row_by_type_poly_none gdf hp]
  · intro h2
    have hMne : gdf.filter PreprocessFile.isMultiRow ≠ [] := by
      intro h0
      rw [h0] at h2
      simp at h2
    have hexp : ∀ r ∈ gdf.filter PreprocessFile.isMultiRow,
        PreprocessFile.rowExpand r = Except.ok (PreprocessFile.expandRow r) := by
      intro r hr
      have hmem := List.mem_filter.mp hr
      exact rowExpand_eq_expandRow r (hne r hmem.1 hmem.2)
    unfold PreprocessFile.preprocess_multipoly
    rw [row_by_type_multi_some gdf hMne]
    by_cases hq : gdf.filter PreprocessFile.isPolyRow = []
    · rw [row_by_type_poly_none gdf hq]
      simp [transform_multipoly_ge2 _ h2 hexp, exceptBind_ok, hq]
    · rw [row_by_type_poly_some gdf hq]
      simp [transform_multipoly_ge2 _ h2 hexp, exceptBind_ok]
  · intro row hM1
    have hrowmem : row ∈ gdf.filter PreprocessFile.isMultiRow := by
      rw [hM1]; exact List.mem_singleton_self row
    have hmem := List.mem_filter.mp hrowmem
    have hneq := hne row hmem.1 hmem.2
    cases hg : PreprocessFile.geomList row.geometry with
    | nil => exact absurd hg hneq
    | cons p ps =>
      refine ⟨p, ps, rfl, ?_⟩
      unfold PreprocessFile.preprocess_multipoly
      rw [row_by_type_multi_some gdf (by rw [hM1]; simp)]
      by_cases hq : gdf.filter PreprocessFile.isPolyRow = []
      · rw [row_by_type_poly_none gdf hq]
        simp [hM1, transform_multipoly_single row p ps hg, exceptBind_ok, hq]
      · rw [row_by_type_poly_some gdf hq]
        simp [hM1, transform_multipoly_single row p ps hg, exceptBind_ok]
  · intro hm hq
    unfold PreprocessFile.preprocess_multipoly
    rw [row_by_type_multi_none gdf hm, row_by_type_poly_some gdf hq]

/-- C4 amended witness: two MultiPolygon rows (one with two constituents,
one with a single constituent) and a Polygon row expand as the amended
claim states. -/
theorem C4_flatten_amended_wit :
    PreprocessFile.preprocess_multipoly
        [{ name := "m", geometry := PreprocessFile.Geom.multi [0, 1] },
         { name := "n", geometry := PreprocessFile.Geom.multi [2] },
         { name := "q", geometry := PreprocessFile.Geom.poly (5 : ℕ) }] =
      Except.ok
        [{ name := "m_0", geometry := PreprocessFile.Geom.poly 0 },
         { name := "m_1", geometry := PreprocessFile.Geom.poly 1 },
         { name := "n", geometry := PreprocessFile.Geom.poly 2 },
         { name := "q", geometry := PreprocessFile.Geom.poly 5 }] := by
  have h :=
    (C4_flatten_amended
        [{ name := "m", geometry := PreprocessFile.Geom.multi [0, 1] },
         { name := "n", geometry := PreprocessFile.Geom.multi [2] },
         { name := "q", geometry := PreprocessFile.Geom.poly (5 : ℕ) }]
        (by decide)).2.1 (by decide)
  exact h

/-- Pixel access into a zipWith combination of two arrays. -/
theorem getD_zipWith (f : ℚ → ℚ → ℚ) :
    ∀ (a b : List ℚ) (i : ℕ), i < a.length → i < b.length →
      (List.zipWith f a b).getD i 0 = f (a.getD i 0) (b.getD i 0) := by
  intro a
  induction a with
  | nil =>
    intro b i h _
    simp at h
  | cons x t ih =>
    intro b i h1 h2
    cases b with
    | nil => simp at h2
    | cons y u =>
      cases i with
      | zero => rfl
      | succ j =>
        simp only [List.zipWith_cons_cons, List.getD_cons_succ]
        exact ih u j (by simpa using h1) (by simpa using h2)

/-- C1: whenever the band arrays entering the ratio have equal shapes, the
file written by generate_ndvi holds, pixel by pixel, the normalized
difference of B08 (nir) and B04 (red), and the file written by
generate_ndre holds, pixel by pixel, the normalized difference of the
resampled B08 (nir) and B05 (red edge). -/
theorem C1_index_ratio :
    (∀ (st : ImgProcessing.R10mState) (bands : List (String × String)) (f4 f8 : String),
      "NDVI.tiff" ∉ st.files →
      ImgProcessing.buildBands st.files = Except.ok bands →
      ImgProcessing.dictGet? bands "B04" = some f4 →
      ImgProcessing.dictGet? bands "B08" = some f8 →
      (st.read f8).length = (st.read f4).length →
      ∃ out, ImgProcessing.generate_ndvi st = Except.ok (some ("NDVI.tiff", out)) ∧
        out.length = (st.read f8).length ∧
        ∀ i, i < out.length →
          out.getD i 0 =
            ((st.read f8).getD i 0 - (st.read f4).getD i 0) /
              ((st.read f8).getD i 0 + (st.read f4).getD i 0)) ∧
    (∀ (resample : List ℚ → List ℚ) (st : ImgProcessing.ImgDataState)
        (bands20 bands10 : List (String × String)) (f5 f8 : String),
      "NDRE.tiff" ∉ st.r10mFiles →
      ImgProcessing.buildBands st.r20mFiles = Except.ok bands20 →
      ImgProcessing.dictGet? bands20 "B05" = some f5 →
      ImgProcessing.buildBands st.r10mFiles = Except.ok bands10 →
      ImgProcessing.dictGet? bands10 "B08" = some f8 →
      (resample (st.readR10m f8)).length = (st.readR20m f5).length →
      ∃ out, ImgProcessing.generate_ndre resample st =
          Except.ok [("B8_reproj.tiff", resample (st.readR10m f8)), ("NDRE.tiff", out)] ∧
        out.length = (resample (st.readR10m f8)).length ∧
        ∀ i, i < out.length →
          out.getD i 0 =
            ((resample (st.readR10m f8)).getD i 0 - (st.readR20m f5).getD i 0) /
              ((resample (st.readR10m f8)).getD i 0 + (st.readR20m f5).getD i 0)) := by
  constructor
  · intro st bands f4 f8 hnd hb h4 h8 hlen
    refine ⟨List.zipWith (fun n r => (n - r) / (n + r)) (st.read f8) (st.read f4),
      ?_, ?_, ?_⟩
    · unfold ImgProcessing.generate_ndvi
      rw [if_neg hnd, hb]
      simp [exceptBind_ok, ImgProcessing.bandOrKeyError, h4, h8,
        ImgProcessing.normDiff, hlen]
    · simp [List.length_zipWith, hlen]
    · intro i hi
      rw [List.length_zipWith, hlen, min_self] at hi
      exact getD_zipWith _ _ _ i (by rw [hlen]; exact hi) hi
  · intro resample st bands20 bands10 f5 f8 hnd hb20 h5 hb10 h8 hlen
    refine ⟨List.zipWith (fun n r => (n - r) / (n + r))
        (resample (st.readR10m f8)) (st.readR20m f5), ?_, ?_, ?_⟩
    · unfold ImgProcessing.generate_ndre
      rw [if_neg hnd, hb20, hb10]
      simp [exceptBind_ok, ImgProcessing.bandOrKeyError, h5, h8,
        ImgProcessing.normDiff, hlen]
    · simp [List.length_zipWith, hlen]
    · intro i hi
      rw [List.length_zipWith, hlen, min_self] at hi
      exact getD_zipWith _ _ _ i (by rw [hlen]; exact hi) hi

/-- C1 witness: concrete two pixel bands produce the normalized
differences through generate_ndvi and generate_ndre. -/
theorem C1_index_ratio_wit :
    (∃ out, ImgProcessing.generate_ndvi
        { files := ["T33_x_B04_10m.jp2", "T33_x_B08_10m.jp2"],
          read := fun f => if f = "T33_x_B04_10m.jp2" then [1, 2] else [3, 6] } =
        Except.ok (some ("NDVI.tiff", out)) ∧
      out.length = ((fun f => if f = "T33_x_B04_10m.jp2" then [1, 2] else
          ([3, 6] : List ℚ)) "T33_x_B08_10m.jp2").length ∧
      ∀ i, i < out.length →
        out.getD i 0 =
          (((fun f => if f = "T33_x_B04_10m.jp2" then [1, 2] else
              ([3, 6] : List ℚ)) "T33_x_B08_10m.jp2").getD i 0 -
            ((fun f => if f = "T33_x_B04_10m.jp2" then [1, 2] else
              ([3, 6] : List ℚ)) "T33_x_B04_10m.jp2").getD i 0) /
          (((fun f => if f = "T33_x_B04_10m.jp2" then [1, 2] else
              ([3, 6] : List ℚ)) "T33_x_B08_10m.jp2").getD i 0 +
            ((fun f => if f = "T33_x_B04_10m.jp2" then [1, 2] else
              ([3, 6] : List ℚ)) "T33_x_B04_10m.jp2").getD i 0)) ∧
    (∃ out, ImgProcessing.generate_ndre (fun l => l)
        { r10mFiles := ["T33_x_B08_10m.jp2"],
          r20mFiles := ["T33_x_B05_20m.jp2"],
          readR10m := fun _ => [3, 6],
          readR20m := fun _ => [1, 2] } =
        Except.ok [("B8_reproj.tiff", (fun l => l) ((fun _ => ([3, 6] : List ℚ))
            "T33_x_B08_10m.jp2")), ("NDRE.tiff", out)] ∧
      out.length = ((fun l => l) ((fun _ => ([3, 6] : List ℚ))
          "T33_x_B08_10m.jp2")).length ∧
      ∀ i, i < out.length →
        out.getD i 0 =
          (((fun l => l) ((fun _ => ([3, 6] : List ℚ)) "T33_x_B08_10m.jp2")).getD i 0 -
            ((fun _ => ([1, 2] : List ℚ)) "T33_x_B05_20m.jp2").getD i 0) /
          (((fun l => l) ((fun _ => ([3, 6] : List ℚ)) "T33_x_B08_10m.jp2")).getD i 0 +
            ((fun _ => ([1, 2] : List ℚ)) "T33_x_B05_20m.jp2").getD i 0)) := by
  constructor
  · exact C1_index_ratio.1
      { files := ["T33_x_B04_10m.jp2", "T33_x_B08_10m.jp2"],
        read := fun f => if f = "T33_x_B04_10m.jp2" then [1, 2] else [3, 6] }
      [("B08", "T33_x_B08_10m.jp2"), ("B04", "T33_x_B04_10m.jp2")]
      "T33_x_B04_10m.jp2" "T33_x_B08_10m.jp2"
      (by decide) (by rfl) (by rfl) (by rfl) (by rfl)
  · exact C1_index_ratio.2 (fun l => l)
      { r10mFiles := ["T33_x_B08_10m.jp2"],
        r20mFiles := ["T33_x_B05_20m.jp2"],
        readR10m := fun _ => [3, 6],
        readR20m := fun _ => [1, 2] }
      [("B05", "T33_x_B05_20m.jp2")] [("B08", "T33_x_B08_10m.jp2")]
      "T33_x_B05_20m.jp2" "T33_x_B08_10m.jp2"
      (by decide) (by rfl) (by rfl) (by rfl) (by rfl) (by rfl)

/-- The downloaded list after one loop iteration: it grows by the index
label of the row exactly when the row passes the threshold and its
filename is not yet in the directory listing. -/
theorem step_downloaded {P : Type} (area : P → ℚ) (inter : P → P → P)
    (zipC : SentiDownload.Product P → List String) (polygon : P) (reg : Bool)
    (thr : ℚ) (st : SentiDownload.DlState P) (r : SentiDownload.Product P) :
    (SentiDownload.download_folders_step area inter zipC polygon reg thr st r).downloaded =
      st.downloaded ++
        (if thr ≤ SentiDownload.dlRatio area inter polygon reg r ∧
            r.filename ∉ st.dbFiles then [r.idx] else []) := by
  unfold SentiDownload.download_folders_step
  by_cases h1 : thr ≤ SentiDownload.dlRatio area inter polygon reg r
  · by_cases h2 : r.filename ∈ st.dbFiles
    · simp [h1, h2]
    · simp [h1, h2]
  · simp [h1]

/-- The directory listing only grows along one loop iteration. -/
theorem step_dbFiles_mono {P : Type} (area : P → ℚ) (inter : P → P → P)
    (zipC : SentiDownload.Product P → List String) (polygon : P) (reg : Bool)
    (thr : ℚ) (st : SentiDownload.DlState P) (r : SentiDownload.Product P)
    (f : String) (hf : f ∈ st.dbFiles) :
    f ∈ (SentiDownload.download_folders_step area inter zipC polygon reg thr st r).dbFiles := by
  unfold SentiDownload.download_folders_step
  by_cases h1 : thr ≤ SentiDownload.dlRatio area inter polygon reg r
  · by_cases h2 : r.filename ∈ st.dbFiles
    · simpa [h1, h2] using hf
    · simp only [h1, h2, if_true, if_false, if_pos, ite_false, ite_true]
      simp [h2, List.mem_append, hf]
  · simpa [h1] using hf

/-- The directory listing only grows along the loop. -/
theorem foldl_dbFiles_mono {P : Type} (area : P → ℚ) (inter : P → P → P)
    (zipC : SentiDownload.Product P → List String) (polygon : P) (reg : Bool)
    (thr : ℚ) :
    ∀ (l : List (SentiDownload.Product P)) (st : SentiDownload.DlState P)
      (f : String), f ∈ st.dbFiles →
      f ∈ (l.foldl (SentiDownload.download_folders_step area inter zipC polygon reg thr) st).dbFiles := by
  intro l
  induction l with
  | nil => intro st f hf; exact hf
  | cons r t ih =>
    intro st f hf
    exact ih _ f (step_dbFiles_mono area inter zipC polygon reg thr st r f hf)

/-- The downloaded labels accumulated along the loop extend the incoming
ones, and every new label comes from a processed row. -/
theorem foldl_downloaded_decomp {P : Type} (area : P → ℚ) (inter : P → P → P)
    (zipC : SentiDownload.Product P → List String) (polygon : P) (reg : Bool)
    (thr : ℚ) :
    ∀ (l : List (SentiDownload.Product P)) (st : SentiDownload.DlState P),
      ∃ ex, (l.foldl (SentiDownload.download_folders_step area inter zipC polygon reg thr) st).downloaded =
          st.downloaded ++ ex ∧
        ∀ i ∈ ex, i ∈ l.map SentiDownload.Product.idx := by
  intro l
  induction l with
  | nil => intro st; exact ⟨[], by simp, by simp⟩
  | cons r t ih =>
    intro st
    obtain ⟨ex, hex, hmem⟩ := ih
      (SentiDownload.download_folders_step area inter zipC polygon reg thr st r)
    refine ⟨(if thr ≤ SentiDownload.dlRatio area inter polygon reg r ∧
        r.filename ∉ st.dbFiles then [r.idx] else []) ++ ex, ?_, ?_⟩
    · rw [List.foldl_cons, hex,
        step_downloaded area inter zipC polygon reg thr st r, List.append_assoc]
    · intro i hi
      rcases List.mem_append.mp hi with hmid | hext
      · rcases Classical.em (thr ≤ SentiDownload.dlRatio area inter polygon reg r ∧
          r.filename ∉ st.dbFiles) with hc | hc
        · rw [if_pos hc] at hmid
          simp at hmid
          simp [hmid]
        · rw [if_neg hc] at hmid
          cases hmid
      · simp [hmem i hext]

/-- Characterization of the downloads of download_folders: a row with a
unique index label is downloaded exactly when it passes the threshold and
its filename is absent from the directory listing at the moment the loop
reaches it. -/
theorem downloads_mem_iff {P : Type} (area : P → ℚ) (inter : P → P → P)
    (zipC : SentiDownload.Product P → List String) (polygon : P) (reg : Bool)
    (thr : ℚ) (db0 : List String)
    (pre post : List (SentiDownload.Product P)) (r : SentiDownload.Product P)
    (hnd : ((pre ++ r :: post).map SentiDownload.Product.idx).Nodup) :
    (r.idx ∈ (SentiDownload.download_folders area inter zipC polygon reg
        (pre ++ r :: post) db0 thr).2 ↔
      (thr ≤ SentiDownload.dlRatio area inter polygon reg r ∧
        r.filename ∉ (pre.foldl
          (SentiDownload.download_folders_step area inter zipC polygon reg thr)
          { dbFiles := db0, delete := [], downloaded := [] }).dbFiles)) := by
  have hpre : r.idx ∉ pre.map SentiDownload.Product.idx := by
    rw [List.map_append] at hnd
    have hd := (List.nodup_append.mp hnd).2.2
    intro hmem
    exact hd hmem (by simp)
  have hpost : r.idx ∉ post.map SentiDownload.Product.idx := by
    rw [List.map_append] at hnd
    have hmid := (List.nodup_append.mp hnd).2.1
    rw [List.map_cons, List.nodup_cons] at hmid
    exact hmid.1
  unfold SentiDownload.download_folders
  simp only [List.foldl_append, List.foldl_cons]
  obtain ⟨ex1, hex1, hmem1⟩ := foldl_downloaded_decomp area inter zipC polygon reg thr pre
    { dbFiles := db0, delete := [], downloaded := [] }
  obtain ⟨ex2, hex2, hmem2⟩ := foldl_downloaded_decomp area inter zipC polygon reg thr post
    (SentiDownload.download_folders_step area inter zipC polygon reg thr
      (pre.foldl (SentiDownload.download_folders_step area inter zipC polygon reg thr)
        { dbFiles := db0, delete := [], downloaded := [] }) r)
  rw [hex2, step_downloaded, hex1]
  constructor
  · intro hin
    simp only [List.mem_append] at hin
    rcases hin with ((hinit | h1) | h2) | hext
    · cases hinit
    · exact absurd (hmem1 _ h1) hpre
    · by_cases hc : thr ≤ SentiDownload.dlRatio area inter polygon reg r ∧
        r.filename ∉ (pre.foldl
          (SentiDownload.download_folders_step area inter zipC polygon reg thr)
          { dbFiles := db0, delete := [], downloaded := [] }).dbFiles
      · exact hc
      · rw [if_neg hc] at h2
        cases h2
    · exact absurd (hmem2 _ hext) hpost
  · intro hc
    simp only [List.mem_append]
    left
    right
    rw [if_pos hc]
    simp

/-- C2 counterexample: a candidate product whose footprint covers the
polygon of interest entirely (ratio 1, computed against the polygon area,
with regional_poly false) passes the 0.9 threshold, yet because its
filename is already listed in the database directory download_folders does
not select it for download: nothing is downloaded. -/
theorem C2_threshold_counterexample :
    ((9 : ℚ) / 10 ≤ SentiDownload.dlRatio (fun q => q) (fun a _ => a)
        1 false { idx := 0, geometry := 1, filename := "a.SAFE", title := "t" }) ∧
    (SentiDownload.download_folders (fun q => q) (fun a _ => a)
        (fun _ => []) (1 : ℚ) false
        [{ idx := 0, geometry := 1, filename := "a.SAFE", title := "t" }]
        ["a.SAFE"] ((9 : ℚ) / 10)).2 = [] := by
  constructor
  · norm_num [SentiDownload.dlRatio]
  · unfold SentiDownload.download_folders
    simp only [List.foldl_cons, List.foldl_nil]
    rw [step_downloaded, if_neg]
    · rfl
    · rintro ⟨-, hnot⟩
      exact hnot (by decide)

/-- C2 amended: for every candidate product with a unique index label,
download_folders selects it for download exactly when the area of the
intersection of its footprint with the polygon of interest, divided by the
area of the polygon when regional_poly is false and by the area of the
footprint when regional_poly is true, reaches the threshold, and its
filename is not present in the database directory listing at the moment
the loop reaches the product. -/
theorem C2_threshold_amended {P : Type} (area : P → ℚ) (inter : P → P → P)
    (zipC : SentiDownload.Product P → List String) (polygon : P) (reg : Bool)
    (thr : ℚ) (db0 : List String)
    (pre post : List (SentiDownload.Product P)) (r : SentiDownload.Product P)
    (hnd : ((pre ++ r :: post).map SentiDownload.Product.idx).Nodup) :
    (r.idx ∈ (SentiDownload.download_folders area inter zipC polygon reg
        (pre ++ r :: post) db0 thr).2 ↔
      (thr ≤ SentiDownload.dlRatio area inter polygon reg r ∧
        r.filename ∉ ((pre.foldl
          (SentiDownload.download_folders_step area inter zipC polygon reg thr)
          { dbFiles := db0, delete := [], downloaded := [] })).dbFiles)) :=
  downloads_mem_iff area inter zipC polygon reg thr db0 pre post r hnd

/-- C2 amended witness: a product whose filename is not yet in the
directory and whose ratio reaches the threshold is downloaded. -/
theorem C2_threshold_amended_wit :
    (0 ∈ (SentiDownload.download_folders (fun q => q) (fun a _ => a)
        (fun _ => []) (1 : ℚ) false
        ([] ++ ({ idx := 0, geometry := 1, filename := "b.SAFE", title := "t" } :
          SentiDownload.Product ℚ) :: [])
        ["a.SAFE"] ((9 : ℚ) / 10)).2 ↔
      ((9 : ℚ) / 10 ≤ SentiDownload.dlRatio (fun q => q) (fun a _ => a)
          1 false { idx := 0, geometry := 1, filename := "b.SAFE", title := "t" } ∧
        ¬ ("b.SAFE" ∈ (List.foldl
          (SentiDownload.download_folders_step (fun q => q) (fun a _ => a)
            (fun _ => []) 1 false ((9 : ℚ) / 10))
          { dbFiles := ["a.SAFE"], delete := [], downloaded := [] } []).dbFiles))) :=
  C2_threshold_amended (fun q => q) (fun a _ => a) (fun _ => [])
    (1 : ℚ) false ((9 : ℚ) / 10) ["a.SAFE"] [] []
    { idx := 0, geometry := 1, filename := "b.SAFE", title := "t" } (by decide)

/-- C9: when the output already exists nothing is redone: generate_ndvi
returns without writing when NDVI.tiff is listed in R10m, generate_ndre
returns without writing when NDRE.tiff is listed in R10m, and
download_folders never downloads a product whose filename is already
listed in the database directory. -/
theorem C9_no_overwrite :
    (∀ st : ImgProcessing.R10mState, "NDVI.tiff" ∈ st.files →
      ImgProcessing.generate_ndvi st = Except.ok none) ∧
    (∀ (resample : List ℚ → List ℚ) (st : ImgProcessing.ImgDataState),
      "NDRE.tiff" ∈ st.r10mFiles →
      ImgProcessing.generate_ndre resample st = Except.ok []) ∧
    (∀ (P : Type) (area : P → ℚ) (inter : P → P → P)
        (zipC : SentiDownload.Product P → List String) (polygon : P)
        (reg : Bool) (thr : ℚ) (db0 : List String)
        (products : List (SentiDownload.Product P))
        (r : SentiDownload.Product P),
      (products.map SentiDownload.Product.idx).Nodup → r ∈ products →
      r.filename ∈ db0 →
      r.idx ∉ (SentiDownload.download_folders area inter zipC polygon reg
        products db0 thr).2) := by
  refine ⟨?_, ?_, ?_⟩
  · intro st h
    unfold ImgProcessing.generate_ndvi
    rw [if_pos h]
  · intro resample st h
    unfold ImgProcessing.generate_ndre
    rw [if_pos h]
  · intro P area inter zipC polygon reg thr db0 products r hnd hr hdb
    obtain ⟨s, t, rfl⟩ := List.append_of_mem hr
    rw [downloads_mem_iff area inter zipC polygon reg thr db0 s t r hnd]
    rintro ⟨-, hnot⟩
    exact hnot (foldl_dbFiles_mono area inter zipC polygon reg thr s
      { dbFiles := db0, delete := [], downloaded := [] } r.filename hdb)

/-- C9 witness: an existing NDVI.tiff, an existing NDRE.tiff and an
already listed product are each left alone. -/
theorem C9_no_overwrite_wit :
    ImgProcessing.generate_ndvi { files := ["NDVI.tiff"], read := fun _ => [] } =
      Except.ok none ∧
    ImgProcessing.generate_ndre (fun l => l)
      { r10mFiles := ["NDRE.tiff"], r20mFiles := [],
        readR10m := fun _ => [], readR20m := fun _ => [] } = Except.ok [] ∧
    0 ∉ (SentiDownload.download_folders (fun q => q) (fun a _ => a)
        (fun _ => []) (1 : ℚ) false
        [{ idx := 0, geometry := 1, filename := "a.SAFE", title := "t" }]
        ["a.SAFE"] ((9 : ℚ) / 10)).2 :=
  ⟨C9_no_overwrite.1 { files := ["NDVI.tiff"], read := fun _ => [] } (by decide),
   C9_no_overwrite.2.1 (fun l => l)
     { r10mFiles := ["NDRE.tiff"], r20mFiles := [],
       readR10m := fun _ => [], readR20m := fun _ => [] } (by decide),
   C9_no_overwrite.2.2 ℚ (fun q => q) (fun a _ => a) (fun _ => [])
     (1 : ℚ) false ((9 : ℚ) / 10) ["a.SAFE"]
     [{ idx := 0, geometry := 1, filename := "a.SAFE", title := "t" }]
     { idx := 0, geometry := 1, filename := "a.SAFE", title := "t" }
     (by decide) (by decide) (by decide)⟩

/-- In an association list with pairwise distinct keys, find? locates the
unique entry of a present key. -/
theorem assoc_find_nodup {B : Type} :
    ∀ (l : List (String × B)) (k : String) (v : B),
      (l.map Prod.fst).Nodup → (k, v) ∈ l →
      l.find? (fun e => e.1 == k) = some (k, v) := by
  intro l
  induction l with
  | nil =>
    intro k v _ hm
    cases hm
  | cons a t ih =>
    intro k v hnd hm
    rw [List.map_cons, List.nodup_cons] at hnd
    by_cases h : a.1 = k
    · rcases List.mem_cons.mp hm with heq | hmt
      · rw [List.find?_cons_of_pos _ (by simp [h]), ← heq]
      · exact absurd (h ▸ List.mem_map.mpr ⟨(k, v), hmt, rfl⟩) hnd.1
    · rw [List.find?_cons_of_neg _ (by simp [h])]
      apply ih k v hnd.2
      rcases List.mem_cons.mp hm with heq | hmt
      · exact absurd ((congrArg Prod.fst heq).symm) h
      · exact hmt

/-- Reading a dictionary with pairwise distinct keys gives the value bound
to the key. -/
theorem dictGetLast_nodup {B : Type} (l : List (String × B)) (k : String)
    (v : B) (hnd : (l.map Prod.fst).Nodup) (hm : (k, v) ∈ l) :
    ImgProcessing.dictGetLast? l k = some v := by
  unfold ImgProcessing.dictGetLast?
  rw [assoc_find_nodup l.reverse k v
    (by rw [List.map_reverse]; exact List.nodup_reverse.mpr hnd)
    (List.mem_reverse.mpr hm)]
  rfl

/-- C8: for a polygon row of the geodataframe (with pairwise distinct
polygon names) whose geometry is entirely contained in the footprint of a
ledger row — the intersection is the polygon itself — and whose area is
nonzero, the area fraction computed by get_folders is exactly 1, so with a
threshold at most 1 the product filename is selected for that polygon. -/
theorem C8_full_containment {P : Type} (area : P → ℚ) (inter : P → P → P)
    (gdfRows : List (ImgProcessing.GdfRow P))
    (csvRows : List (ImgProcessing.CsvRow P))
    (g : ImgProcessing.GdfRow P) (r : ImgProcessing.CsvRow P) (thr : ℚ)
    (hg : g ∈ gdfRows) (hnd : (gdfRows.map ImgProcessing.GdfRow.name).Nodup)
    (hr : r ∈ csvRows)
    (hcont : inter g.geometry r.geometry = g.geometry)
    (ha : area g.geometry ≠ 0) (hthr : thr ≤ 1) :
    ImgProcessing.folderRatio area inter g r = 1 ∧
    ∃ folders dates,
      ImgProcessing.get_folders area inter gdfRows csvRows none none thr =
        Except.ok (folders, dates) ∧
      ∃ sel, ImgProcessing.dictGetLast? folders g.name = some sel ∧
        r.filename ∈ sel := by
  have hratio : ImgProcessing.folderRatio area inter g r = 1 := by
    unfold ImgProcessing.folderRatio
    rw [hcont]
    exact div_self ha
  refine ⟨hratio,
    gdfRows.map (fun g2 => (g2.name,
      (ImgProcessing.polyFolderRows area inter g2 csvRows thr).map
        (fun r2 => r2.filename))),
    gdfRows.map (fun g2 => (g2.name,
      (ImgProcessing.polyFolderRows area inter g2 csvRows thr).map
        (fun r2 => r2.ingestiondate))), by rfl,
    (ImgProcessing.polyFolderRows area inter g csvRows thr).map
      (fun r2 => r2.filename), ?_, ?_⟩
  · apply dictGetLast_nodup
    · rw [List.map_map]
      exact hnd
    · exact List.mem_map.mpr ⟨g, hg, rfl⟩
  · apply List.mem_map.mpr
    refine ⟨r, ?_, rfl⟩
    unfold ImgProcessing.polyFolderRows
    apply List.mem_filter.mpr
    refine ⟨hr, ?_⟩
    rw [hratio]
    exact decide_eq_true hthr

/-- C8 witness: a ledger footprint containing the unit-area polygon gives
fraction 1 and the filename is selected at threshold one half. -/
theorem C8_full_containment_wit :
    ImgProcessing.folderRatio (fun q => q) (fun a _ => a)
      { name := "p", geometry := (1 : ℚ) }
      { filename := "f.SAFE", ingestiondate := 0, geometry := 2 } = 1 ∧
    ∃ folders dates,
      ImgProcessing.get_folders (fun q => q) (fun a _ => a)
          [{ name := "p", geometry := (1 : ℚ) }]
          [{ filename := "f.SAFE", ingestiondate := 0, geometry := 2 }]
          none none ((1 : ℚ) / 2) =
        Except.ok (folders, dates) ∧
      ∃ sel, ImgProcessing.dictGetLast? folders "p" = some sel ∧
        "f.SAFE" ∈ sel :=
  C8_full_containment (fun q => q) (fun a _ => a)
    [{ name := "p", geometry := (1 : ℚ) }]
    [{ filename := "f.SAFE", ingestiondate := 0, geometry := 2 }]
    { name := "p", geometry := (1 : ℚ) }
    { filename := "f.SAFE", ingestiondate := 0, geometry := 2 }
    ((1 : ℚ) / 2)
    (List.mem_singleton_self _) (by simp) (List.mem_singleton_self _)
    rfl (by norm_num) (by norm_num)

/-- C10: with poly_name omitted, each mask method clips with the geometry
of the first row of the geodataframe only, whatever the remaining rows
are, and writes the output under the name of that first row. -/
theorem C10_first_polygon :
    (∀ (P : Type) (g : ImgProcessing.GdfRow P)
        (rest : List (ImgProcessing.GdfRow P)) (img_path : String)
        (d : ImgProcessing.MaskDate),
      ImgProcessing.mask_ndre (g :: rest) img_path d none =
        Except.ok ([g.geometry],
          g.name ++ "/NDRE/" ++ ImgProcessing.strftimeDMY d ++ "_ndre.tiff")) ∧
    (∀ (P : Type) (g : ImgProcessing.GdfRow P)
        (rest : List (ImgProcessing.GdfRow P)) (img_path : String)
        (d : ImgProcessing.MaskDate),
      ImgProcessing.mask_ndvi (g :: rest) img_path d none =
        Except.ok ([g.geometry],
          g.name ++ "/NDVI/" ++ ImgProcessing.strftimeDMY d ++ "_ndvi.tiff")) ∧
    (∀ (P : Type) (g : ImgProcessing.GdfRow P)
        (rest : List (ImgProcessing.GdfRow P)) (r10mFiles : List String)
        (img_path : String) (d : ImgProcessing.MaskDate)
        (bands : List (String × String)) (tci : String),
      ImgProcessing.buildBands r10mFiles = Except.ok bands →
      ImgProcessing.dictGet? bands "TCI" = some tci →
      ImgProcessing.mask_tci (g :: rest) r10mFiles img_path d none =
        Except.ok ([g.geometry],
          g.name ++ "/TCI/" ++ ImgProcessing.strftimeDMY d ++ "_tci.tiff")) := by
  refine ⟨?_, ?_, ?_⟩
  · intro P g rest img_path d
    rfl
  · intro P g rest img_path d
    rfl
  · intro P g rest r10mFiles img_path d bands tci hb ht
    unfold ImgProcessing.mask_tci
    rw [hb]
    simp [exceptBind_ok, ImgProcessing.bandOrKeyError, ht,
      ImgProcessing.mask_select]

/-- C10 witness: a two row geodataframe clips and writes with the first
row only, for all three mask methods. -/
theorem C10_first_polygon_wit :
    ImgProcessing.mask_ndre
      [{ name := "first", geometry := (1 : ℚ) },
       { name := "second", geometry := 2 }] "IMG"
      { day := 5, month := 4, year := 2021 } none =
      Except.ok ([(1 : ℚ)], "first/NDRE/05-04-2021_ndre.tiff") ∧
    ImgProcessing.mask_ndvi
      [{ name := "first", geometry := (1 : ℚ) },
       { name := "second", geometry := 2 }] "IMG"
      { day := 5, month := 4, year := 2021 } none =
      Except.ok ([(1 : ℚ)], "first/NDVI/05-04-2021_ndvi.tiff") ∧
    ImgProcessing.mask_tci
      [{ name := "first", geometry := (1 : ℚ) },
       { name := "second", geometry := 2 }] ["T33_x_TCI_10m.jp2"] "IMG"
      { day := 5, month := 4, year := 2021 } none =
      Except.ok ([(1 : ℚ)], "first/TCI/05-04-2021_tci.tiff") := by
  refine ⟨?_, ?_, ?_⟩
  · have h := C10_first_polygon.1 ℚ { name := "first", geometry := (1 : ℚ) }
      [{ name := "second", geometry := 2 }] "IMG"
      { day := 5, month := 4, year := 2021 }
    rw [h]
    rfl
  · have h := C10_first_polygon.2.1 ℚ { name := "first", geometry := (1 : ℚ) }
      [{ name := "second", geometry := 2 }] "IMG"
      { day := 5, month := 4, year := 2021 }
    rw [h]
    rfl
  · have h := C10_first_polygon.2.2 ℚ { name := "first", geometry := (1 : ℚ) }
      [{ name := "second", geometry := 2 }] ["T33_x_TCI_10m.jp2"] "IMG"
      { day := 5, month := 4, year := 2021 }
      [("TCI", "T33_x_TCI_10m.jp2")] "T33_x_TCI_10m.jp2" (by rfl) (by rfl)
    rw [h]
    rfl
